import Mathlib

/-!
# STM322xG-EVAL camera driver (stm322xg_eval_camera.c)

A shallow embedding of the board-support camera driver.  The three globals of
the file (`hdcmi_eval`, `camera_drv`, `current_resolution`) and the static DMA
handle of `BSP_CAMERA_MspInit` form the state `Globals`; every driver function
is a function on `Globals` that also returns the list of calls it makes, in
order, to code outside the file (the HAL and the sensor driver).  Values that
come back from outside (the identification probe, the status of
`HAL_DCMI_Stop`, the contents of the driver tables) and the constants of the
headers, which are not part of the sources, are parameters gathered in `Env`.

Calls that leave the file are taken not to write the variables of the file
behind its back; what the HAL does inside its handles is not modelled.
`BSP_CAMERA_MspInit` is the weak default given in the file.
-/

namespace Camera

/-! ## Types of the headers -/

/-- Modelled from the spec: the status type returned by `BSP_CAMERA_Init` and
`BSP_CAMERA_Stop` is declared in the header stm322xg_eval_camera.h, which is
missing from the sources; the spec (section 7) says both operations "use a
two-valued status (OK/ERROR)". -/
inductive Camera_StatusTypeDef
  | CAMERA_OK
  | CAMERA_ERROR
  deriving DecidableEq

/-- Constants of the missing headers, taken as parameters.  The two resolution
constants are the labels of the `switch` in `GetSize`; C requires the case
labels of one switch to be pairwise different, which is recorded in
`case_labels_distinct`. -/
structure Header where
  CAMERA_I2C_ADDRESS : Nat
  OV2640_ID : Nat
  CAMERA_R160x120 : Nat
  CAMERA_R320x240 : Nat
  CAMERA_CONTRAST_BRIGHTNESS : Nat
  CAMERA_BLACK_WHITE : Nat
  CAMERA_COLOR_EFFECT : Nat
  HAL_OK : Nat
  case_labels_distinct : CAMERA_R160x120 ≠ CAMERA_R320x240

/-- Names of the HAL constants and peripherals the file stores or passes on;
they are kept symbolic. -/
inductive HAL_Name
  | DCMI_CR_ALL_FRAME | DCMI_HSPOLARITY_LOW | DCMI_SYNCHRO_HARDWARE
  | DCMI_VSPOLARITY_LOW | DCMI_EXTEND_DATA_8B | DCMI_PCKPOLARITY_RISING
  | DCMI
  | DMA_CHANNEL_1 | DMA_PERIPH_TO_MEMORY | DMA_PINC_DISABLE | DMA_MINC_ENABLE
  | DMA_CIRCULAR | DMA_PRIORITY_HIGH | DMA_FIFOMODE_DISABLE
  | DMA_FIFO_THRESHOLD_FULL | DMA_MBURST_SINGLE | DMA_PBURST_SINGLE
  | DMA2_Stream1
  | GPIO_MODE_AF_PP | GPIO_PULLUP | GPIO_SPEED_HIGH | GPIO_AF13_DCMI
  | GPIOA | GPIOH | GPIOI
  | DCMI_IRQn | DMA2_Stream1_IRQn
  | DMA2
  deriving DecidableEq

/-- Width of one DMA data item, the value of `DMA_PDATAALIGN_x` and
`DMA_MDATAALIGN_x`. -/
inductive DMA_DataAlignment
  | BYTE
  | HALFWORD
  | WORD
  deriving DecidableEq

/-- Number of bytes of one DMA data item of the given width. -/
def DMA_DataAlignment.bytes : DMA_DataAlignment → Nat
  | DMA_DataAlignment.BYTE => 1
  | DMA_DataAlignment.HALFWORD => 2
  | DMA_DataAlignment.WORD => 4

/-- Capture mode argument of `HAL_DCMI_Start_DMA`. -/
inductive DCMI_Mode
  | DCMI_MODE_CONTINUOUS
  | DCMI_MODE_SNAPSHOT
  deriving DecidableEq

/-- The `Init` part of the capture handle; a field is `none` until it is
written. -/
structure DCMI_InitTypeDef where
  CaptureRate : Option HAL_Name := none
  HSPolarity : Option HAL_Name := none
  SynchroMode : Option HAL_Name := none
  VSPolarity : Option HAL_Name := none
  ExtendedDataMode : Option HAL_Name := none
  PCKPolarity : Option HAL_Name := none
  deriving DecidableEq

/-- The `Init` part of a DMA handle. -/
structure DMA_InitTypeDef where
  Channel : Option HAL_Name := none
  Direction : Option HAL_Name := none
  PeriphInc : Option HAL_Name := none
  MemInc : Option HAL_Name := none
  PeriphDataAlignment : Option DMA_DataAlignment := none
  MemDataAlignment : Option DMA_DataAlignment := none
  Mode : Option HAL_Name := none
  Priority : Option HAL_Name := none
  FIFOMode : Option HAL_Name := none
  FIFOThreshold : Option HAL_Name := none
  MemBurst : Option HAL_Name := none
  PeriphBurst : Option HAL_Name := none
  deriving DecidableEq

/-- The handles of the file, as targets of pointers: the global capture handle
and the static DMA handle of `BSP_CAMERA_MspInit`. -/
inductive HandleRef
  | hdcmi_eval
  | hdma
  deriving DecidableEq

/-- A DMA handle: configuration, stream, and the handle it is linked to. -/
structure DMA_HandleTypeDef where
  Init : DMA_InitTypeDef := {}
  Instance : Option HAL_Name := none
  Parent : Option HandleRef := none
  deriving DecidableEq

/-- The capture (DCMI) handle: configuration, peripheral, linked DMA handle.
The fields the HAL keeps for itself (state, lock, error code) are not
modelled. -/
structure DCMI_HandleTypeDef where
  Init : DCMI_InitTypeDef := {}
  Instance : Option HAL_Name := none
  DMA_Handle : Option HandleRef := none
  deriving DecidableEq

/-- A sensor driver table that `camera_drv` can point to: `ov2640_drv`, the
only one the file binds itself, or another table bound from outside (the
pointer is a non-static global). -/
inductive DrvRef
  | ov2640_drv
  | other (n : Nat)
  deriving DecidableEq

/-- A function pointer of a driver table: `NULL` or the address of a
function. -/
inductive FnPtr
  | NULL
  | fn
  deriving DecidableEq

/-- The part of a driver table the file tests: its `Config` entry.  The
entries `ReadID` and `Init` of `ov2640_drv` are called without a test and are
functions of the sensor driver. -/
structure CAMERA_DrvTypeDef where
  Config : FnPtr
  deriving DecidableEq

/-- The argument of `HAL_GPIO_Init`: the pins (by number) and their setup. -/
structure GPIO_InitTypeDef where
  Pin : List Nat
  Mode : HAL_Name
  Pull : HAL_Name
  Speed : HAL_Name
  Alternate : HAL_Name
  deriving DecidableEq

/-- A call that leaves the file, with its arguments as written at the call
site. -/
inductive Call
  | RCC_CLK_ENABLE (periph : HAL_Name)
  | HAL_GPIO_Init (port : HAL_Name) (init : GPIO_InitTypeDef)
  | HAL_NVIC_SetPriority (irq : HAL_Name) (preempt sub : Nat)
  | HAL_NVIC_EnableIRQ (irq : HAL_Name)
  | HAL_DMA_Init (hdma : Option HandleRef)
  | HAL_DCMI_Init (hdcmi : HandleRef)
  | ov2640_ReadID (addr : Nat)
  | drv_Init (drv : DrvRef) (addr resolution : Nat)
  | drv_Config (drv : DrvRef) (addr feature value brightness : Nat)
  | HAL_DCMI_Start_DMA (hdcmi : HandleRef) (mode : DCMI_Mode) (pData Length : Nat)
  | HAL_DCMI_Suspend (hdcmi : HandleRef)
  | HAL_DCMI_Resume (hdcmi : HandleRef)
  | HAL_DCMI_Stop (hdcmi : HandleRef)
  deriving DecidableEq

/-- Everything outside the file that its functions depend on: the header
constants, the contents of the driver tables, the identifier that
`ov2640_drv.ReadID` returns for an address, and the status that
`HAL_DCMI_Stop` returns. -/
structure Env where
  hdr : Header
  drv : DrvRef → CAMERA_DrvTypeDef
  ReadID : Nat → Nat
  HAL_DCMI_Stop : Nat

/-! ## State -/

/-- The variables of the file with static storage: `hdcmi_eval`, `camera_drv`
(`none` is the null pointer), `current_resolution`, and the static `hdma` of
`BSP_CAMERA_MspInit`. -/
structure Globals where
  hdcmi_eval : DCMI_HandleTypeDef := {}
  camera_drv : Option DrvRef := none
  current_resolution : Nat := 0
  hdma : DMA_HandleTypeDef := {}
  deriving DecidableEq

/-- The state at program start: static storage is zero-initialised. -/
def Globals.reset : Globals := {}

/-! ## Functions of the file -/

/-- `GetSize`: the capture size of a resolution (lines 267-291). -/
def GetSize (k : Header) (resolution : Nat) : Nat :=
  if resolution = k.CAMERA_R160x120 then 0x2580
  else if resolution = k.CAMERA_R320x240 then 0x9600
  else 0

/-- The three pin setups of `BSP_CAMERA_MspInit` (lines 316-337). -/
def mspPins (pins : List Nat) : GPIO_InitTypeDef :=
  { Pin := pins
    Mode := HAL_Name.GPIO_MODE_AF_PP
    Pull := HAL_Name.GPIO_PULLUP
    Speed := HAL_Name.GPIO_SPEED_HIGH
    Alternate := HAL_Name.GPIO_AF13_DCMI }

/-- The DMA configuration written by `BSP_CAMERA_MspInit` (lines 341-352),
which assigns every field of `hdma.Init`. -/
def mspDmaInit : DMA_InitTypeDef :=
  { Channel := some HAL_Name.DMA_CHANNEL_1
    Direction := some HAL_Name.DMA_PERIPH_TO_MEMORY
    PeriphInc := some HAL_Name.DMA_PINC_DISABLE
    MemInc := some HAL_Name.DMA_MINC_ENABLE
    PeriphDataAlignment := some DMA_DataAlignment.WORD
    MemDataAlignment := some DMA_DataAlignment.WORD
    Mode := some HAL_Name.DMA_CIRCULAR
    Priority := some HAL_Name.DMA_PRIORITY_HIGH
    FIFOMode := some HAL_Name.DMA_FIFOMODE_DISABLE
    FIFOThreshold := some HAL_Name.DMA_FIFO_THRESHOLD_FULL
    MemBurst := some HAL_Name.DMA_MBURST_SINGLE
    PeriphBurst := some HAL_Name.DMA_PBURST_SINGLE }

/-- `BSP_CAMERA_MspInit`, the weak default of the file (lines 296-370):
clocks, pins, the DMA handle and its link to the capture handle, interrupts,
`HAL_DMA_Init`. -/
def BSP_CAMERA_MspInit (g : Globals) : Globals × List Call :=
  let hdma : DMA_HandleTypeDef :=
    { g.hdma with
      Init := mspDmaInit
      Instance := some HAL_Name.DMA2_Stream1
      Parent := some HandleRef.hdcmi_eval }
  let hdcmi : DCMI_HandleTypeDef :=
    { g.hdcmi_eval with DMA_Handle := some HandleRef.hdma }
  ({ g with hdcmi_eval := hdcmi, hdma := hdma },
   [ Call.RCC_CLK_ENABLE HAL_Name.DCMI,
     Call.RCC_CLK_ENABLE HAL_Name.DMA2,
     Call.RCC_CLK_ENABLE HAL_Name.GPIOA,
     Call.RCC_CLK_ENABLE HAL_Name.GPIOH,
     Call.RCC_CLK_ENABLE HAL_Name.GPIOI,
     Call.HAL_GPIO_Init HAL_Name.GPIOA (mspPins [6]),
     Call.HAL_GPIO_Init HAL_Name.GPIOH (mspPins [8, 9, 10, 11, 12, 14]),
     Call.HAL_GPIO_Init HAL_Name.GPIOI (mspPins [4, 5, 6, 7]),
     Call.HAL_NVIC_SetPriority HAL_Name.DCMI_IRQn 0x0F 0,
     Call.HAL_NVIC_EnableIRQ HAL_Name.DCMI_IRQn,
     Call.HAL_NVIC_SetPriority HAL_Name.DMA2_Stream1_IRQn 0x0F 0,
     Call.HAL_NVIC_EnableIRQ HAL_Name.DMA2_Stream1_IRQn,
     Call.HAL_DMA_Init hdcmi.DMA_Handle ])

/-- The capture configuration written by `BSP_CAMERA_Init` (lines 99-104). -/
def dcmiInit : DCMI_InitTypeDef :=
  { CaptureRate := some HAL_Name.DCMI_CR_ALL_FRAME
    HSPolarity := some HAL_Name.DCMI_HSPOLARITY_LOW
    SynchroMode := some HAL_Name.DCMI_SYNCHRO_HARDWARE
    VSPolarity := some HAL_Name.DCMI_VSPOLARITY_LOW
    ExtendedDataMode := some HAL_Name.DCMI_EXTEND_DATA_8B
    PCKPolarity := some HAL_Name.DCMI_PCKPOLARITY_RISING }

/-- `BSP_CAMERA_Init` (lines 89-126): returned status, new state, calls. -/
def BSP_CAMERA_Init (e : Env) (Resolution : Nat) (g : Globals) :
    Camera_StatusTypeDef × Globals × List Call :=
  let g1 : Globals :=
    { g with hdcmi_eval :=
        { g.hdcmi_eval with Init := dcmiInit, Instance := some HAL_Name.DCMI } }
  let msp := BSP_CAMERA_MspInit g1
  let g2 := msp.1
  let calls := msp.2 ++ [Call.HAL_DCMI_Init HandleRef.hdcmi_eval,
                         Call.ov2640_ReadID e.hdr.CAMERA_I2C_ADDRESS]
  if e.ReadID e.hdr.CAMERA_I2C_ADDRESS = e.hdr.OV2640_ID then
    (Camera_StatusTypeDef.CAMERA_OK,
     { g2 with camera_drv := some DrvRef.ov2640_drv, current_resolution := Resolution },
     calls ++ [Call.drv_Init DrvRef.ov2640_drv e.hdr.CAMERA_I2C_ADDRESS Resolution])
  else
    (Camera_StatusTypeDef.CAMERA_ERROR,
     { g2 with current_resolution := Resolution },
     calls)

/-- `BSP_CAMERA_ContinuousStart` (lines 132-136). -/
def BSP_CAMERA_ContinuousStart (e : Env) (buff : Nat) (g : Globals) :
    Globals × List Call :=
  (g, [Call.HAL_DCMI_Start_DMA HandleRef.hdcmi_eval DCMI_Mode.DCMI_MODE_CONTINUOUS
         buff (GetSize e.hdr g.current_resolution)])

/-- `BSP_CAMERA_SnapshotStart` (lines 142-146). -/
def BSP_CAMERA_SnapshotStart (e : Env) (buff : Nat) (g : Globals) :
    Globals × List Call :=
  (g, [Call.HAL_DCMI_Start_DMA HandleRef.hdcmi_eval DCMI_Mode.DCMI_MODE_SNAPSHOT
         buff (GetSize e.hdr g.current_resolution)])

/-- `BSP_CAMERA_Suspend` (lines 151-155). -/
def BSP_CAMERA_Suspend (g : Globals) : Globals × List Call :=
  (g, [Call.HAL_DCMI_Suspend HandleRef.hdcmi_eval])

/-- `BSP_CAMERA_Resume` (lines 160-164). -/
def BSP_CAMERA_Resume (g : Globals) : Globals × List Call :=
  (g, [Call.HAL_DCMI_Resume HandleRef.hdcmi_eval])

/-- `BSP_CAMERA_Stop` (lines 170-185). -/
def BSP_CAMERA_Stop (e : Env) (g : Globals) :
    Camera_StatusTypeDef × Globals × List Call :=
  (if e.HAL_DCMI_Stop = e.hdr.HAL_OK then Camera_StatusTypeDef.CAMERA_OK
   else Camera_StatusTypeDef.CAMERA_ERROR,
   g,
   [Call.HAL_DCMI_Stop HandleRef.hdcmi_eval])

/-- `BSP_CAMERA_ContrastBrightnessConfig` (lines 204-210).  The test
`camera_drv->Config != NULL` reads the `Config` entry through `camera_drv`;
through the null pointer that is undefined behaviour, and the result is
`none`. -/
def BSP_CAMERA_ContrastBrightnessConfig (e : Env) (contrast_level brightness_level : Nat)
    (g : Globals) : Option (Globals × List Call) :=
  match g.camera_drv with
  | none => none
  | some d =>
    match (e.drv d).Config with
    | FnPtr.NULL => some (g, [])
    | FnPtr.fn =>
      some (g, [Call.drv_Config d e.hdr.CAMERA_I2C_ADDRESS e.hdr.CAMERA_CONTRAST_BRIGHTNESS
                  contrast_level brightness_level])

/-- `BSP_CAMERA_BlackWhiteConfig` (lines 221-227), with the same test. -/
def BSP_CAMERA_BlackWhiteConfig (e : Env) (Mode : Nat) (g : Globals) :
    Option (Globals × List Call) :=
  match g.camera_drv with
  | none => none
  | some d =>
    match (e.drv d).Config with
    | FnPtr.NULL => some (g, [])
    | FnPtr.fn =>
      some (g, [Call.drv_Config d e.hdr.CAMERA_I2C_ADDRESS e.hdr.CAMERA_BLACK_WHITE Mode 0])

/-- `BSP_CAMERA_ColorEffectConfig` (lines 238-244), with the same test. -/
def BSP_CAMERA_ColorEffectConfig (e : Env) (Effect : Nat) (g : Globals) :
    Option (Globals × List Call) :=
  match g.camera_drv with
  | none => none
  | some d =>
    match (e.drv d).Config with
    | FnPtr.NULL => some (g, [])
    | FnPtr.fn =>
      some (g, [Call.drv_Config d e.hdr.CAMERA_I2C_ADDRESS e.hdr.CAMERA_COLOR_EFFECT Effect 0])

/-! ## Observations on states and call lists -/

/-- Whether a call is a call of a sensor driver's `Init` entry. -/
def Call.isDrvInit : Call → Bool
  | Call.drv_Init _ _ _ => true
  | _ => false

/-- Whether a call is a `HAL_DCMI_Stop`. -/
def Call.isStop : Call → Bool
  | Call.HAL_DCMI_Stop _ => true
  | _ => false

/-- A sample environment: header constants with CAMERA_I2C_ADDRESS 0x60,
OV2640_ID 0x26, resolutions 0 and 1, features 0, 3 and 4, HAL_OK 0; every
driver table has a `Config` function; the probe answers `id`, the stop
returns `stop`. -/
def sampleEnv (id stop : Nat) : Env :=
  { hdr :=
      { CAMERA_I2C_ADDRESS := 0x60
        OV2640_ID := 0x26
        CAMERA_R160x120 := 0
        CAMERA_R320x240 := 1
        CAMERA_CONTRAST_BRIGHTNESS := 0
        CAMERA_BLACK_WHITE := 3
        CAMERA_COLOR_EFFECT := 4
        HAL_OK := 0
        case_labels_distinct := by decide }
    drv := fun _ => { Config := FnPtr.fn }
    ReadID := fun _ => id
    HAL_DCMI_Stop := stop }

/-- A sample environment like `sampleEnv` whose driver tables other than
`ov2640_drv` have no `Config` function. -/
def sampleEnvNoConfig (id stop : Nat) : Env :=
  { sampleEnv id stop with
    drv := fun d => match d with
      | DrvRef.ov2640_drv => { Config := FnPtr.fn }
      | DrvRef.other _ => { Config := FnPtr.NULL } }

/-! ## Facts about `BSP_CAMERA_Init` -/

/-- The status of `BSP_CAMERA_Init` is decided by the probe alone. -/
lemma Init_status (e : Env) (Resolution : Nat) (g : Globals) :
    (BSP_CAMERA_Init e Resolution g).1 =
      if e.ReadID e.hdr.CAMERA_I2C_ADDRESS = e.hdr.OV2640_ID then
        Camera_StatusTypeDef.CAMERA_OK
      else Camera_StatusTypeDef.CAMERA_ERROR := by
  unfold BSP_CAMERA_Init
  split_ifs <;> rfl

/-- The resolution is recorded on both paths of `BSP_CAMERA_Init`. -/
lemma Init_current_resolution (e : Env) (Resolution : Nat) (g : Globals) :
    (BSP_CAMERA_Init e Resolution g).2.1.current_resolution = Resolution := by
  unfold BSP_CAMERA_Init
  split_ifs <;> rfl

/-- The driver pointer after `BSP_CAMERA_Init`. -/
lemma Init_camera_drv (e : Env) (Resolution : Nat) (g : Globals) :
    (BSP_CAMERA_Init e Resolution g).2.1.camera_drv =
      if e.ReadID e.hdr.CAMERA_I2C_ADDRESS = e.hdr.OV2640_ID then some DrvRef.ov2640_drv
      else g.camera_drv := by
  unfold BSP_CAMERA_Init
  split_ifs <;> rfl

/-- The calls of `BSP_CAMERA_Init` to a sensor driver's `Init` entry. -/
lemma Init_drvInit_calls (e : Env) (Resolution : Nat) (g : Globals) :
    (BSP_CAMERA_Init e Resolution g).2.2.filter Call.isDrvInit =
      if e.ReadID e.hdr.CAMERA_I2C_ADDRESS = e.hdr.OV2640_ID then
        [Call.drv_Init DrvRef.ov2640_drv e.hdr.CAMERA_I2C_ADDRESS Resolution]
      else [] := by
  unfold BSP_CAMERA_Init
  split_ifs <;> rfl

/-- The size of the first supported resolution. -/
lemma GetSize_R160x120 (k : Header) : GetSize k k.CAMERA_R160x120 = 0x2580 := by
  simp [GetSize]

/-- The size of the second supported resolution. -/
lemma GetSize_R320x240 (k : Header) : GetSize k k.CAMERA_R320x240 = 0x9600 := by
  have h := k.case_labels_distinct
  simp [GetSize, Ne.symm h]

/-- The size of every other resolution. -/
lemma GetSize_other (k : Header) (r : Nat) (h1 : r ≠ k.CAMERA_R160x120)
    (h2 : r ≠ k.CAMERA_R320x240) : GetSize k r = 0 := by
  simp [GetSize, h1, h2]

/-! ## Theorems -/

/-- C2: for every resolution value, `GetSize` is strictly positive when the
value is `CAMERA_R160x120` or `CAMERA_R320x240`, and exactly zero for every
other value. -/
theorem GetSize_pos_iff_supported (k : Header) (r : Nat) :
    ((r = k.CAMERA_R160x120 ∨ r = k.CAMERA_R320x240) → 0 < GetSize k r) ∧
    (¬ (r = k.CAMERA_R160x120 ∨ r = k.CAMERA_R320x240) → GetSize k r = 0) := by
  unfold GetSize
  constructor
  · rintro (h | h)
    · simp [h]
    · split_ifs <;> simp_all
  · intro h
    push_neg at h
    simp [h.1, h.2]

/-- C1: for every resolution and every prior state, `BSP_CAMERA_Init` returns
`CAMERA_OK` if and only if `ov2640_drv.ReadID(CAMERA_I2C_ADDRESS)` returns
`OV2640_ID`, and returns `CAMERA_ERROR` for every other probe value; the
status is the same for every resolution argument and prior state. -/
theorem BSP_CAMERA_Init_ok_iff_probe (e : Env) (Resolution : Nat) (g : Globals) :
    ((BSP_CAMERA_Init e Resolution g).1 = Camera_StatusTypeDef.CAMERA_OK ↔
      e.ReadID e.hdr.CAMERA_I2C_ADDRESS = e.hdr.OV2640_ID) ∧
    ((BSP_CAMERA_Init e Resolution g).1 = Camera_StatusTypeDef.CAMERA_ERROR ↔
      e.ReadID e.hdr.CAMERA_I2C_ADDRESS ≠ e.hdr.OV2640_ID) ∧
    (∀ (r2 : Nat) (g2 : Globals),
      (BSP_CAMERA_Init e r2 g2).1 = (BSP_CAMERA_Init e Resolution g).1) := by
  refine ⟨?_, ?_, ?_⟩
  · rw [Init_status]
    split_ifs with h <;> simp [h]
  · rw [Init_status]
    split_ifs with h <;> simp [h]
  · intro r2 g2
    rw [Init_status, Init_status]

/-- C3: for every buffer address and prior state, after a successful
`BSP_CAMERA_Init(CAMERA_R160x120)` the function `BSP_CAMERA_ContinuousStart`
issues exactly one `HAL_DCMI_Start_DMA` request on the capture handle, in
continuous mode, with destination `buf` and length argument 0x2580; after a
successful `BSP_CAMERA_Init(CAMERA_R320x240)`, `BSP_CAMERA_SnapshotStart`
issues exactly one such request in snapshot mode with destination `buf` and
length argument 0x9600. -/
theorem Start_after_Init_request (e : Env) (buf : Nat) (g : Globals)
    (hprobe : e.ReadID e.hdr.CAMERA_I2C_ADDRESS = e.hdr.OV2640_ID) :
    ((BSP_CAMERA_Init e e.hdr.CAMERA_R160x120 g).1 = Camera_StatusTypeDef.CAMERA_OK ∧
     (BSP_CAMERA_ContinuousStart e buf (BSP_CAMERA_Init e e.hdr.CAMERA_R160x120 g).2.1).2 =
       [Call.HAL_DCMI_Start_DMA HandleRef.hdcmi_eval DCMI_Mode.DCMI_MODE_CONTINUOUS
         buf 0x2580]) ∧
    ((BSP_CAMERA_Init e e.hdr.CAMERA_R320x240 g).1 = Camera_StatusTypeDef.CAMERA_OK ∧
     (BSP_CAMERA_SnapshotStart e buf (BSP_CAMERA_Init e e.hdr.CAMERA_R320x240 g).2.1).2 =
       [Call.HAL_DCMI_Start_DMA HandleRef.hdcmi_eval DCMI_Mode.DCMI_MODE_SNAPSHOT
         buf 0x9600]) := by
  refine ⟨⟨?_, ?_⟩, ⟨?_, ?_⟩⟩
  · rw [Init_status, if_pos hprobe]
  · simp only [BSP_CAMERA_ContinuousStart, Init_current_resolution, GetSize_R160x120]
  · rw [Init_status, if_pos hprobe]
  · simp only [BSP_CAMERA_SnapshotStart, Init_current_resolution, GetSize_R320x240]

/-- Witness of C3: the sample environment whose probe answers `OV2640_ID`,
buffer 0x20000000, the reset state. -/
theorem Start_after_Init_request_witness :
    ((BSP_CAMERA_Init (sampleEnv 0x26 0) 0 Globals.reset).1
        = Camera_StatusTypeDef.CAMERA_OK ∧
     (BSP_CAMERA_ContinuousStart (sampleEnv 0x26 0) 0x20000000
        (BSP_CAMERA_Init (sampleEnv 0x26 0) 0 Globals.reset).2.1).2 =
       [Call.HAL_DCMI_Start_DMA HandleRef.hdcmi_eval DCMI_Mode.DCMI_MODE_CONTINUOUS
         0x20000000 0x2580]) ∧
    ((BSP_CAMERA_Init (sampleEnv 0x26 0) 1 Globals.reset).1
        = Camera_StatusTypeDef.CAMERA_OK ∧
     (BSP_CAMERA_SnapshotStart (sampleEnv 0x26 0) 0x20000000
        (BSP_CAMERA_Init (sampleEnv 0x26 0) 1 Globals.reset).2.1).2 =
       [Call.HAL_DCMI_Start_DMA HandleRef.hdcmi_eval DCMI_Mode.DCMI_MODE_SNAPSHOT
         0x20000000 0x9600]) :=
  Start_after_Init_request (sampleEnv 0x26 0) 0x20000000 Globals.reset rfl

/-- C4: for every resolution other than `CAMERA_R160x120` and
`CAMERA_R320x240`, when the probe answers `OV2640_ID`, `BSP_CAMERA_Init` still
returns `CAMERA_OK`, and a following `BSP_CAMERA_ContinuousStart` (likewise
`BSP_CAMERA_SnapshotStart`) issues its one `HAL_DCMI_Start_DMA` request with
length argument 0. -/
theorem Start_after_Init_unsupported (e : Env) (r buf : Nat) (g : Globals)
    (h160 : r ≠ e.hdr.CAMERA_R160x120) (h320 : r ≠ e.hdr.CAMERA_R320x240)
    (hprobe : e.ReadID e.hdr.CAMERA_I2C_ADDRESS = e.hdr.OV2640_ID) :
    (BSP_CAMERA_Init e r g).1 = Camera_StatusTypeDef.CAMERA_OK ∧
    (BSP_CAMERA_ContinuousStart e buf (BSP_CAMERA_Init e r g).2.1).2 =
      [Call.HAL_DCMI_Start_DMA HandleRef.hdcmi_eval DCMI_Mode.DCMI_MODE_CONTINUOUS buf 0] ∧
    (BSP_CAMERA_SnapshotStart e buf (BSP_CAMERA_Init e r g).2.1).2 =
      [Call.HAL_DCMI_Start_DMA HandleRef.hdcmi_eval DCMI_Mode.DCMI_MODE_SNAPSHOT buf 0] := by
  refine ⟨?_, ?_, ?_⟩
  · rw [Init_status, if_pos hprobe]
  · simp only [BSP_CAMERA_ContinuousStart, Init_current_resolution, GetSize_other e.hdr r h160 h320]
  · simp only [BSP_CAMERA_SnapshotStart, Init_current_resolution, GetSize_other e.hdr r h160 h320]

/-- Witness of C4: resolution value 3 in the sample environment. -/
theorem Start_after_Init_unsupported_witness :
    (BSP_CAMERA_Init (sampleEnv 0x26 0) 3 Globals.reset).1
      = Camera_StatusTypeDef.CAMERA_OK ∧
    (BSP_CAMERA_ContinuousStart (sampleEnv 0x26 0) 0x20000000
        (BSP_CAMERA_Init (sampleEnv 0x26 0) 3 Globals.reset).2.1).2 =
      [Call.HAL_DCMI_Start_DMA HandleRef.hdcmi_eval DCMI_Mode.DCMI_MODE_CONTINUOUS
        0x20000000 0] ∧
    (BSP_CAMERA_SnapshotStart (sampleEnv 0x26 0) 0x20000000
        (BSP_CAMERA_Init (sampleEnv 0x26 0) 3 Globals.reset).2.1).2 =
      [Call.HAL_DCMI_Start_DMA HandleRef.hdcmi_eval DCMI_Mode.DCMI_MODE_SNAPSHOT
        0x20000000 0] :=
  Start_after_Init_unsupported (sampleEnv 0x26 0) 3 0x20000000 Globals.reset
    (by decide) (by decide) rfl

/-- C5: `BSP_CAMERA_Init` binds the driver table and initialises the sensor
exactly when the probe matches.  If `ReadID` returns `OV2640_ID`, then after
the call `camera_drv` points to `ov2640_drv` and the driver's `Init` entry has
been called exactly once, with `CAMERA_I2C_ADDRESS` and the requested
resolution.  If `ReadID` returns another value, the `Init` entry is not called
and `camera_drv` keeps its value; from the reset state it is still null. -/
theorem BSP_CAMERA_Init_binds_iff_probe (e : Env) (Resolution : Nat) (g : Globals) :
    (e.ReadID e.hdr.CAMERA_I2C_ADDRESS = e.hdr.OV2640_ID →
      (BSP_CAMERA_Init e Resolution g).2.1.camera_drv = some DrvRef.ov2640_drv ∧
      (BSP_CAMERA_Init e Resolution g).2.2.filter Call.isDrvInit =
        [Call.drv_Init DrvRef.ov2640_drv e.hdr.CAMERA_I2C_ADDRESS Resolution]) ∧
    (e.ReadID e.hdr.CAMERA_I2C_ADDRESS ≠ e.hdr.OV2640_ID →
      (BSP_CAMERA_Init e Resolution g).2.2.filter Call.isDrvInit = [] ∧
      (BSP_CAMERA_Init e Resolution g).2.1.camera_drv = g.camera_drv ∧
      (BSP_CAMERA_Init e Resolution Globals.reset).2.1.camera_drv = none) := by
  constructor
  · intro h
    rw [Init_camera_drv, Init_drvInit_calls, if_pos h, if_pos h]
    exact ⟨rfl, rfl⟩
  · intro h
    simp only [Init_camera_drv, Init_drvInit_calls, if_neg h]
    simp [Globals.reset]

/-- C6: for every resolution, probe result and prior state, after
`BSP_CAMERA_Init(r)` the recorded `current_resolution` is `r`, also when the
status is `CAMERA_ERROR`; a start call made afterwards requests the size
looked up for `r`, whatever resolution was recorded before. -/
theorem BSP_CAMERA_Init_records_resolution (e : Env) (r buf : Nat) (g : Globals) :
    (BSP_CAMERA_Init e r g).2.1.current_resolution = r ∧
    (BSP_CAMERA_ContinuousStart e buf (BSP_CAMERA_Init e r g).2.1).2 =
      [Call.HAL_DCMI_Start_DMA HandleRef.hdcmi_eval DCMI_Mode.DCMI_MODE_CONTINUOUS
        buf (GetSize e.hdr r)] ∧
    (BSP_CAMERA_SnapshotStart e buf (BSP_CAMERA_Init e r g).2.1).2 =
      [Call.HAL_DCMI_Start_DMA HandleRef.hdcmi_eval DCMI_Mode.DCMI_MODE_SNAPSHOT
        buf (GetSize e.hdr r)] := by
  refine ⟨Init_current_resolution e r g, ?_, ?_⟩
  · simp only [BSP_CAMERA_ContinuousStart, Init_current_resolution]
  · simp only [BSP_CAMERA_SnapshotStart, Init_current_resolution]

/-- C7 (as stated, refuted): with no driver bound the configuration functions
are not no-ops.  In the reset state, and in the state left by a failed first
`BSP_CAMERA_Init`, `camera_drv` is null and each function reads
`camera_drv->Config` through it: the call does not complete normally. -/
theorem Config_unbound_not_noop :
    Globals.reset.camera_drv = none ∧
    BSP_CAMERA_ContrastBrightnessConfig (sampleEnv 0 0) 2 2 Globals.reset = none ∧
    BSP_CAMERA_BlackWhiteConfig (sampleEnv 0 0) 1 Globals.reset = none ∧
    BSP_CAMERA_ColorEffectConfig (sampleEnv 0 0) 1 Globals.reset = none ∧
    (BSP_CAMERA_Init (sampleEnv 0 0) 0 Globals.reset).1
      = Camera_StatusTypeDef.CAMERA_ERROR ∧
    (BSP_CAMERA_Init (sampleEnv 0 0) 0 Globals.reset).2.1.camera_drv = none ∧
    BSP_CAMERA_BlackWhiteConfig (sampleEnv 0 0) 1
      (BSP_CAMERA_Init (sampleEnv 0 0) 0 Globals.reset).2.1 = none ∧
    ¬ BSP_CAMERA_BlackWhiteConfig (sampleEnv 0 0) 1 Globals.reset
      = some (Globals.reset, []) := by
  refine ⟨rfl, rfl, rfl, rfl, rfl, rfl, rfl, ?_⟩
  intro h
  cases h

/-- C7 (amended): each of the three configuration functions is a no-op, for
all argument values, whenever a driver is bound whose `Config` entry is
`NULL`: the call completes normally, makes no call at all (so none reaches the
sensor driver), and leaves the state of the file unchanged. -/
theorem Config_noop_when_entry_null (e : Env) (g : Globals) (d : DrvRef)
    (contrast_level brightness_level Mode Effect : Nat)
    (hbound : g.camera_drv = some d) (hnull : (e.drv d).Config = FnPtr.NULL) :
    BSP_CAMERA_ContrastBrightnessConfig e contrast_level brightness_level g = some (g, []) ∧
    BSP_CAMERA_BlackWhiteConfig e Mode g = some (g, []) ∧
    BSP_CAMERA_ColorEffectConfig e Effect g = some (g, []) := by
  simp [BSP_CAMERA_ContrastBrightnessConfig, BSP_CAMERA_BlackWhiteConfig,
    BSP_CAMERA_ColorEffectConfig, hbound, hnull]

/-- Witness of C7 (amended): a bound driver table without a `Config`
function. -/
theorem Config_noop_when_entry_null_witness :
    BSP_CAMERA_ContrastBrightnessConfig (sampleEnvNoConfig 0x26 0) 2 3
        { Globals.reset with camera_drv := some (DrvRef.other 0) }
      = some ({ Globals.reset with camera_drv := some (DrvRef.other 0) }, []) ∧
    BSP_CAMERA_BlackWhiteConfig (sampleEnvNoConfig 0x26 0) 1
        { Globals.reset with camera_drv := some (DrvRef.other 0) }
      = some ({ Globals.reset with camera_drv := some (DrvRef.other 0) }, []) ∧
    BSP_CAMERA_ColorEffectConfig (sampleEnvNoConfig 0x26 0) 4
        { Globals.reset with camera_drv := some (DrvRef.other 0) }
      = some ({ Globals.reset with camera_drv := some (DrvRef.other 0) }, []) :=
  Config_noop_when_entry_null (sampleEnvNoConfig 0x26 0)
    { Globals.reset with camera_drv := some (DrvRef.other 0) } (DrvRef.other 0)
    2 3 1 4 rfl rfl

/-- C8: for every state, `BSP_CAMERA_Stop` calls `HAL_DCMI_Stop` on the
capture handle exactly once (it is its only call), returns `CAMERA_OK` if and
only if that call returned `HAL_OK` and `CAMERA_ERROR` for every other status,
and leaves the state, with the bound driver and the recorded resolution,
unchanged. -/
theorem BSP_CAMERA_Stop_status (e : Env) (g : Globals) :
    (BSP_CAMERA_Stop e g).2.2 = [Call.HAL_DCMI_Stop HandleRef.hdcmi_eval] ∧
    ((BSP_CAMERA_Stop e g).2.2.filter Call.isStop).length = 1 ∧
    ((BSP_CAMERA_Stop e g).1 = Camera_StatusTypeDef.CAMERA_OK ↔
      e.HAL_DCMI_Stop = e.hdr.HAL_OK) ∧
    ((BSP_CAMERA_Stop e g).1 = Camera_StatusTypeDef.CAMERA_ERROR ↔
      e.HAL_DCMI_Stop ≠ e.hdr.HAL_OK) ∧
    (BSP_CAMERA_Stop e g).2.1 = g ∧
    (BSP_CAMERA_Stop e g).2.1.camera_drv = g.camera_drv ∧
    (BSP_CAMERA_Stop e g).2.1.current_resolution = g.current_resolution := by
  refine ⟨rfl, rfl, ?_, ?_, rfl, rfl, rfl⟩
  · unfold BSP_CAMERA_Stop
    by_cases h : e.HAL_DCMI_Stop = e.hdr.HAL_OK <;> simp [h]
  · unfold BSP_CAMERA_Stop
    by_cases h : e.HAL_DCMI_Stop = e.hdr.HAL_OK <;> simp [h]

/-- C9: when a driver with a non-NULL `Config` entry is bound, each
configuration function makes exactly one call, to that entry, with
`CAMERA_I2C_ADDRESS`, its own feature code and its arguments unchanged:
contrast and brightness for `CAMERA_CONTRAST_BRIGHTNESS`, the mode and 0 for
`CAMERA_BLACK_WHITE`, the effect and 0 for `CAMERA_COLOR_EFFECT`. -/
theorem Config_forwards_when_entry_set (e : Env) (g : Globals) (d : DrvRef)
    (c b m eff : Nat)
    (hbound : g.camera_drv = some d) (hfn : (e.drv d).Config = FnPtr.fn) :
    BSP_CAMERA_ContrastBrightnessConfig e c b g =
      some (g, [Call.drv_Config d e.hdr.CAMERA_I2C_ADDRESS
                  e.hdr.CAMERA_CONTRAST_BRIGHTNESS c b]) ∧
    BSP_CAMERA_BlackWhiteConfig e m g =
      some (g, [Call.drv_Config d e.hdr.CAMERA_I2C_ADDRESS e.hdr.CAMERA_BLACK_WHITE m 0]) ∧
    BSP_CAMERA_ColorEffectConfig e eff g =
      some (g, [Call.drv_Config d e.hdr.CAMERA_I2C_ADDRESS e.hdr.CAMERA_COLOR_EFFECT eff 0]) := by
  simp [BSP_CAMERA_ContrastBrightnessConfig, BSP_CAMERA_BlackWhiteConfig,
    BSP_CAMERA_ColorEffectConfig, hbound, hfn]

/-- Witness of C9: the state after a successful `BSP_CAMERA_Init` in the
sample environment, with the largest 32-bit value among the arguments. -/
theorem Config_forwards_when_entry_set_witness :
    BSP_CAMERA_ContrastBrightnessConfig (sampleEnv 0x26 0) 0xFFFFFFFF 2
        (BSP_CAMERA_Init (sampleEnv 0x26 0) 0 Globals.reset).2.1 =
      some ((BSP_CAMERA_Init (sampleEnv 0x26 0) 0 Globals.reset).2.1,
        [Call.drv_Config DrvRef.ov2640_drv (sampleEnv 0x26 0).hdr.CAMERA_I2C_ADDRESS
          (sampleEnv 0x26 0).hdr.CAMERA_CONTRAST_BRIGHTNESS 0xFFFFFFFF 2]) ∧
    BSP_CAMERA_BlackWhiteConfig (sampleEnv 0x26 0) 1
        (BSP_CAMERA_Init (sampleEnv 0x26 0) 0 Globals.reset).2.1 =
      some ((BSP_CAMERA_Init (sampleEnv 0x26 0) 0 Globals.reset).2.1,
        [Call.drv_Config DrvRef.ov2640_drv (sampleEnv 0x26 0).hdr.CAMERA_I2C_ADDRESS
          (sampleEnv 0x26 0).hdr.CAMERA_BLACK_WHITE 1 0]) ∧
    BSP_CAMERA_ColorEffectConfig (sampleEnv 0x26 0) 3
        (BSP_CAMERA_Init (sampleEnv 0x26 0) 0 Globals.reset).2.1 =
      some ((BSP_CAMERA_Init (sampleEnv 0x26 0) 0 Globals.reset).2.1,
        [Call.drv_Config DrvRef.ov2640_drv (sampleEnv 0x26 0).hdr.CAMERA_I2C_ADDRESS
          (sampleEnv 0x26 0).hdr.CAMERA_COLOR_EFFECT 3 0]) :=
  Config_forwards_when_entry_set (sampleEnv 0x26 0)
    (BSP_CAMERA_Init (sampleEnv 0x26 0) 0 Globals.reset).2.1 DrvRef.ov2640_drv
    0xFFFFFFFF 2 1 3 rfl rfl

/-- C10: for the supported resolutions 160x120 and 320x240 the length `L`
looked up by `GetSize` satisfies `4 * L = W * H * 2`: it is the number of
32-bit words of one frame at 2 bytes per pixel, not the byte count of the
frame.  Both lengths fit in 16 bits and the second is four times the first.
The DMA stream set up by `BSP_CAMERA_MspInit` is configured for word-wide
items, and a start call after `BSP_CAMERA_Init` passes the looked-up length. -/
theorem GetSize_counts_words (e : Env) (r buf : Nat) (g : Globals) :
    4 * GetSize e.hdr e.hdr.CAMERA_R160x120 = 160 * 120 * 2 ∧
    4 * GetSize e.hdr e.hdr.CAMERA_R320x240 = 320 * 240 * 2 ∧
    GetSize e.hdr e.hdr.CAMERA_R160x120 ≠ 160 * 120 * 2 ∧
    GetSize e.hdr e.hdr.CAMERA_R320x240 ≠ 320 * 240 * 2 ∧
    GetSize e.hdr e.hdr.CAMERA_R160x120 < 2 ^ 16 ∧
    GetSize e.hdr e.hdr.CAMERA_R320x240 < 2 ^ 16 ∧
    GetSize e.hdr e.hdr.CAMERA_R320x240 = 4 * GetSize e.hdr e.hdr.CAMERA_R160x120 ∧
    (BSP_CAMERA_MspInit g).1.hdma.Init.PeriphDataAlignment = some DMA_DataAlignment.WORD ∧
    (BSP_CAMERA_MspInit g).1.hdma.Init.MemDataAlignment = some DMA_DataAlignment.WORD ∧
    DMA_DataAlignment.WORD.bytes = 4 ∧
    (BSP_CAMERA_ContinuousStart e buf (BSP_CAMERA_Init e r g).2.1).2 =
      [Call.HAL_DCMI_Start_DMA HandleRef.hdcmi_eval DCMI_Mode.DCMI_MODE_CONTINUOUS
        buf (GetSize e.hdr r)] ∧
    (BSP_CAMERA_SnapshotStart e buf (BSP_CAMERA_Init e r g).2.1).2 =
      [Call.HAL_DCMI_Start_DMA HandleRef.hdcmi_eval DCMI_Mode.DCMI_MODE_SNAPSHOT
        buf (GetSize e.hdr r)] := by
  rw [GetSize_R160x120, GetSize_R320x240]
  refine ⟨by norm_num, by norm_num, by norm_num, by norm_num, by norm_num, by norm_num,
    by norm_num, rfl, rfl, rfl, ?_, ?_⟩
  · simp only [BSP_CAMERA_ContinuousStart, Init_current_resolution]
  · simp only [BSP_CAMERA_SnapshotStart, Init_current_resolution]

end Camera
